import Mathlib

/-!
# Verification of the Email-Craft send pipeline

Shallow embedding of the core of the repository:

* `src/lib/auth.ts` — the token lifecycle (`getUserTokens`, `refreshAccessToken`);
* `src/app/api/email/send/route.ts` (first draft, lines 1–390) — the send
  orchestrator `POST`, the renderer helpers `processHtmlForEmail`,
  `optimizeHtmlForEmail` and the envelope builder `createHtmlEmail`.

Network effects (Prisma, the Google token endpoint, the Gmail API, the
`juice` CSS inliner) are modelled as explicit oracle inputs; everything
else is translated statement by statement from the TypeScript source.
JavaScript truthiness of optional strings (`undefined`/`""` are falsy) is
modelled explicitly where the source relies on it.
-/

namespace EmailCraft

/-- JS `String.prototype.includes` on character lists: `needle` occurs as a
contiguous infix of the list. -/
def listHasSub (needle : List Char) : List Char → Bool
  | [] => needle.isEmpty
  | c :: cs => needle.isPrefixOf (c :: cs) || listHasSub needle cs

/-- JS `hay.includes(needle)`. -/
def strIncludes (hay needle : String) : Bool :=
  listHasSub needle.data hay.data

/-- JS truthiness of an optional string: `undefined`, `null` and `""` are falsy. -/
def truthyOptStr : Option String → Bool
  | some s => s ≠ ""
  | none => false

/-! ## Token lifecycle (`src/lib/auth.ts`) -/

/-- The Prisma `account` row selected by `getUserTokens`
(fields `access_token`, `refresh_token`, `expires_at`, `scope`,
`providerAccountId`; all but the last nullable). `expires_at` is epoch
seconds. -/
structure StoredAccount where
  access_token : Option String
  refresh_token : Option String
  expires_at : Option Nat
  scope : Option String
  providerAccountId : String
  deriving Repr, DecidableEq

/-- A successful JSON body from the Google token endpoint
(`access_token`, `expires_in`, optional `refresh_token`, optional `scope`). -/
structure RefreshResp where
  access_token : String
  expires_in : Nat
  refresh_token : Option String
  scope : Option String
  deriving Repr, DecidableEq

/-- The value `refreshAccessToken` resolves to on success
(`accessToken`, `accessTokenExpires` in ms, `refreshToken`, `scope`). -/
structure RefreshedTokens where
  accessToken : String
  accessTokenExpires : Nat
  refreshToken : String
  scope : String
  deriving Repr, DecidableEq

/-- The pair `getUserTokens` resolves to on success. -/
structure TokenPair where
  accessToken : String
  refreshToken : String
  deriving Repr, DecidableEq

/-- `lib/auth.ts` lines 39–79, `refreshAccessToken`.  The network outcome is
the oracle `resp`: `none` models a non-ok response or a thrown error (both
return `null` in the source); `some r` models an ok JSON body.  `now` models
`Date.now()` (ms).  On success the source returns
`access_token`, `Date.now() + expires_in * 1000`,
`refresh_token ?? refreshToken` (nullish coalescing: an empty string is
kept) and `scope || ""`. -/
def refreshAccessToken (resp : Option RefreshResp) (refreshToken : String)
    (now : Nat) : Option RefreshedTokens :=
  match resp with
  | none => none
  | some r =>
      some { accessToken := r.access_token
             accessTokenExpires := now + r.expires_in * 1000
             refreshToken := r.refresh_token.getD refreshToken
             scope := r.scope.getD "" }

/-- The first required scope checked by `getUserTokens`. -/
def gmailSendScope : String := "https://www.googleapis.com/auth/gmail.send"

/-- The second required scope checked by `getUserTokens`. -/
def gmailComposeScope : String := "https://www.googleapis.com/auth/gmail.compose"

/-- `lib/auth.ts` lines 194–201: `requiredScopes.some(scope =>
account.scope?.includes(scope))` — true when the stored scope string
contains `gmail.send` or `gmail.compose`; a missing scope string is falsy. -/
def hasRequiredScopes : Option String → Bool
  | some s => strIncludes s gmailSendScope || strIncludes s gmailComposeScope
  | none => false

/-- `lib/auth.ts` line 210: `account.expires_at ? account.expires_at * 1000 : 0`
(a stored `0` is falsy, like a missing value). -/
def expiresAtMs : Option Nat → Nat
  | some e => if e = 0 then 0 else e * 1000
  | none => 0

/-- The outcome of one `getUserTokens` call: the resolved value, the stored
account row after the call, and how many refresh network calls were made. -/
structure TokensOutcome where
  result : Option TokenPair
  account : Option StoredAccount
  refreshCalls : Nat
  deriving Repr, DecidableEq

/-- `lib/auth.ts` lines 169–255, `getUserTokens`.  `acct` is the oracle for
the Prisma `findFirst`, `now` is `Date.now()` (ms) and `resp` is the oracle
for the token-endpoint call (used only if a refresh is attempted).
Step by step:
1. no row, or falsy `access_token`/`refresh_token` → `null`;
2. scope string containing neither required scope → `null`;
3. `expiresAt` truthy and `now < expiresAt - 5*60*1000` → the stored pair,
   no refresh, row untouched (JS subtraction can go negative; over `Nat`
   the truncated difference gives the same comparison for `now ≥ 0`);
4. otherwise one refresh: on `null` → `null`, else persist
   `access_token`, `expires_at = ⌊accessTokenExpires / 1000⌋`,
   `refresh_token` and `scope = refreshed.scope || account.scope`, and
   return the new pair. -/
def getUserTokens (acct : Option StoredAccount) (now : Nat)
    (resp : Option RefreshResp) : TokensOutcome :=
  match acct with
  | none => ⟨none, none, 0⟩
  | some a =>
      if truthyOptStr a.access_token = false ∨ truthyOptStr a.refresh_token = false then
        ⟨none, some a, 0⟩
      else if hasRequiredScopes a.scope = false then
        ⟨none, some a, 0⟩
      else
        let expAt := expiresAtMs a.expires_at
        if expAt ≠ 0 ∧ now < expAt - 5 * 60 * 1000 then
          ⟨some ⟨a.access_token.getD "", a.refresh_token.getD ""⟩, some a, 0⟩
        else
          match refreshAccessToken resp (a.refresh_token.getD "") now with
          | none => ⟨none, some a, 1⟩
          | some r =>
              let a' : StoredAccount :=
                { a with
                  access_token := some r.accessToken
                  expires_at := some (r.accessTokenExpires / 1000)
                  refresh_token := some r.refreshToken
                  scope := if r.scope ≠ "" then some r.scope else a.scope }
              ⟨some ⟨r.accessToken, r.refreshToken⟩, some a', 1⟩

/-! ## Email renderer (`src/app/api/email/send/route.ts`, first draft)

The compatibility rewrites are six global JS regex replacements.  Each is
embedded as a left-to-right scan: at every position the matcher either
recognises a match (emitting the replacement and resuming after the matched
text, which is never rescanned — JS `String.replace` with the `g` flag) or
the scan advances one character.  The scan is driven by a fuel argument; the
wrappers supply `length + 1` fuel, and every step consumes at least one
input character, so the fuel never runs out. -/

/-- One global regex replacement pass.  `step` returns
`some (replacement, rest-after-match)` when a match starts at the current
position. -/
def replaceScan (step : List Char → Option (List Char × List Char)) :
    Nat → List Char → List Char
  | 0, s => s
  | _ + 1, [] => []
  | fuel + 1, c :: cs =>
      match step (c :: cs) with
      | some (out, rest) => out ++ replaceScan step fuel rest
      | none => c :: replaceScan step fuel cs

/-- Run a replacement pass over a string with enough fuel. -/
def runReplace (step : List Char → Option (List Char × List Char))
    (s : String) : String :=
  ⟨replaceScan step (s.data.length + 1) s.data⟩

/-- The lookahead `[^>]*cellpadding`: `cellpadding` occurs before the next
`>`. -/
def cellpaddingAhead : List Char → Bool
  | [] => false
  | c :: cs =>
      if ("cellpadding".data).isPrefixOf (c :: cs) then true
      else if c = '>' then false
      else cellpaddingAhead cs

/-- Matcher for `/<table(?![^>]*cellpadding)/g` with replacement
`<table cellpadding="0" cellspacing="0" border="0"`. -/
def tableStep (s : List Char) : Option (List Char × List Char) :=
  if ("<table".data).isPrefixOf s ∧ cellpaddingAhead (s.drop 6) = false then
    some (("<table cellpadding=\"0\" cellspacing=\"0\" border=\"0\"").data, s.drop 6)
  else none

/-- Split at the first `>`: the characters before it and the rest after it. -/
def splitAtGt : List Char → Option (List Char × List Char)
  | [] => none
  | c :: cs =>
      if c = '>' then some ([], cs)
      else (splitAtGt cs).map (fun p => (c :: p.1, p.2))

/-- Matcher for `/<img([^>]*?)>/g` with replacement
`<img$1 style="display:block; border:0; outline:none; text-decoration:none;">`
(`[^>]*?` is everything up to the first `>`). -/
def imgStep (s : List Char) : Option (List Char × List Char) :=
  if ("<img".data).isPrefixOf s then
    (splitAtGt (s.drop 4)).map (fun p =>
      ("<img".data ++ p.1 ++
        (" style=\"display:block; border:0; outline:none; text-decoration:none;\">").data,
       p.2))
  else none

/-- JS `\s` (restricted to its ASCII members, the only ones arising here). -/
def isJsSpace (c : Char) : Bool :=
  c = ' ' || c = '\t' || c = '\n' || c = '\r' || c = '\x0b' || c = '\x0c'

/-- Matcher for `/line-height:\s*(\d+(?:\.\d+)?);/g` with replacement
`line-height:$1; mso-line-height-rule:exactly;` (the matched whitespace is
dropped; `$1` is the digits with an optional fractional part). -/
def lineHeightStep (s : List Char) : Option (List Char × List Char) :=
  if ("line-height:".data).isPrefixOf s then
    let afterWs := (s.drop 12).dropWhile isJsSpace
    let intPart := afterWs.takeWhile Char.isDigit
    let rest := afterWs.dropWhile Char.isDigit
    if intPart = [] then none
    else
      let emit := fun (digits : List Char) (tail : List Char) =>
        some (("line-height:".data ++ digits ++ ("; mso-line-height-rule:exactly;").data),
              tail)
      match rest with
      | ';' :: r => emit intPart r
      | '.' :: r =>
          let fracPart := r.takeWhile Char.isDigit
          if fracPart = [] then none
          else
            match r.dropWhile Char.isDigit with
            | ';' :: r2 => emit (intPart ++ '.' :: fracPart) r2
            | _ => none
      | _ => none
  else none

/-- Matcher for `/lit[^;]+;/g` with empty replacement (used for
`box-shadow:`, `text-shadow:` and `transform:`). -/
def stripDeclStep (lit : List Char) (s : List Char) :
    Option (List Char × List Char) :=
  if lit.isPrefixOf s then
    let body := (s.drop lit.length).takeWhile (fun c => c ≠ ';')
    if body = [] then none
    else
      match (s.drop lit.length).dropWhile (fun c => c ≠ ';') with
      | ';' :: r => some ([], r)
      | _ => none
  else none

/-- `route.ts` lines 145–151: the chained compatibility rewrites applied to
the inlined HTML, in source order (table attributes, img display-block
style, mso line-height hint, shadow/transform stripping). -/
def emailCompatFixes (s : String) : String :=
  runReplace (stripDeclStep ("transform:".data))
    (runReplace (stripDeclStep ("text-shadow:".data))
      (runReplace (stripDeclStep ("box-shadow:".data))
        (runReplace lineHeightStep
          (runReplace imgStep
            (runReplace tableStep s)))))

/-- `route.ts` lines 124–155, `optimizeHtmlForEmail`.  The `juice` CSS
inliner is the oracle `juiceF`; when it throws, the whole `try` block is
abandoned and the input is returned unchanged, so the compatibility
rewrites run only on a successful inlining result. -/
def optimizeHtmlForEmail (juiceF : String → Except String String)
    (html : String) : String :=
  match juiceF html with
  | Except.ok inlined => emailCompatFixes inlined
  | Except.error _ => html

/-- The boilerplate before the interpolated fragment in
`processHtmlForEmail` (route.ts lines 106–116). -/
def docWrapHead : String :=
  "<!DOCTYPE html PUBLIC \"-//W3C//DTD XHTML 1.0 Transitional//EN\" \"http://www.w3.org/TR/xhtml1/DTD/xhtml1-transitional.dtd\">\n<html xmlns=\"http://www.w3.org/1999/xhtml\">\n<head>\n  <meta http-equiv=\"Content-Type\" content=\"text/html; charset=UTF-8\" />\n  <meta name=\"viewport\" content=\"width=device-width, initial-scale=1.0\" />\n  <meta name=\"x-apple-disable-message-reformatting\" />\n  <meta http-equiv=\"X-UA-Compatible\" content=\"IE=edge\" />\n  <title></title>\n</head>\n<body style=\"margin:0;padding:0;-webkit-text-size-adjust:100%;-ms-text-size-adjust:100%;\">\n"

/-- The boilerplate after the interpolated fragment. -/
def docWrapTail : String := "\n</body>\n</html>"

/-- `route.ts` lines 103–121, `processHtmlForEmail`: wrap the input in a
full XHTML document unless (after trimming and lowercasing) it already
starts with `<!doctype` or `<html`. -/
def processHtmlForEmail (html : String) : String :=
  let t := html.trim.toLower
  if ¬ (t.startsWith "<!doctype") ∧ ¬ (t.startsWith "<html") then
    docWrapHead ++ html ++ docWrapTail
  else html

/-! ### Envelope assembly: UTF-8 and base64url -/

/-- UTF-8 encoding of one unicode scalar value (`Buffer.from(s, 'utf8')`). -/
def utf8Char (c : Char) : List Nat :=
  let n := c.toNat
  if n < 128 then [n]
  else if n < 2048 then [192 + n / 64, 128 + n % 64]
  else if n < 65536 then [224 + n / 4096, 128 + n / 64 % 64, 128 + n % 64]
  else [240 + n / 262144, 128 + n / 4096 % 64, 128 + n / 64 % 64, 128 + n % 64]

/-- UTF-8 encoding of a string as a byte list. -/
def utf8Bytes (s : String) : List Nat :=
  s.data.flatMap utf8Char

/-- The standard base64 alphabet (`A–Z`, `a–z`, `0–9`, `+`, `/`). -/
def b64Char (n : Nat) : Char :=
  (("ABCDEFGHIJKLMNOPQRSTUVWXYZabcdefghijklmnopqrstuvwxyz0123456789+/").data.getD n '?')

/-- Standard base64 of a byte list, with `=` padding
(`Buffer.toString("base64")`). -/
def base64Chars : List Nat → List Char
  | [] => []
  | [b1] =>
      [b64Char (b1 / 4), b64Char (b1 % 4 * 16), '=', '=']
  | [b1, b2] =>
      [b64Char (b1 / 4), b64Char (b1 % 4 * 16 + b2 / 16), b64Char (b2 % 16 * 4), '=']
  | b1 :: b2 :: b3 :: rest =>
      b64Char (b1 / 4) :: b64Char (b1 % 4 * 16 + b2 / 16) ::
        b64Char (b2 % 16 * 4 + b3 / 64) :: b64Char (b3 % 64) :: base64Chars rest

/-- The source's base64url post-processing:
`.replace(/\+/g, "-").replace(/\//g, "_").replace(/=+$/, "")`. -/
def base64UrlOfB64 (cs : List Char) : List Char :=
  ((cs.map (fun c => if c = '+' then '-' else if c = '/' then '_' else c)).reverse.dropWhile
    (fun c => c = '=')).reverse

/-- base64url of a string's UTF-8 bytes, exactly as the source computes it. -/
def base64UrlUtf8 (s : String) : String :=
  ⟨base64UrlOfB64 (base64Chars (utf8Bytes s))⟩

/-- JS `Array.prototype.join(", ")`. -/
def joinCommaSpace : List String → String
  | [] => ""
  | [s] => s
  | s :: rest => s ++ ", " ++ joinCommaSpace rest

/-- JS `Array.prototype.join("\r\n")`. -/
def joinCRLF : List String → String
  | [] => ""
  | [s] => s
  | s :: rest => s ++ "\r\n" ++ joinCRLF rest

/-- `route.ts` lines 75–100, `createHtmlEmail`: the header/body parts list
(including `Content-Transfer-Encoding: 7bit` and an empty-string
placeholder between headers and body) is run through `.filter(Boolean)` —
which drops every empty string, the placeholder included — joined with
CRLF, and base64url-encoded. -/
def createHtmlEmail (toAddrs : List String) (subject htmlBody fromName fromEmail : String)
    (replyTo : Option String) : String :=
  let emailParts : List String :=
    [ "To: " ++ joinCommaSpace toAddrs,
      "From: " ++ fromName ++ " <" ++ fromEmail ++ ">",
      "Subject: " ++ subject,
      (match replyTo with
       | some r => if r = "" then "" else "Reply-To: " ++ r
       | none => ""),
      "MIME-Version: 1.0",
      "Content-Type: text/html; charset=UTF-8",
      "Content-Transfer-Encoding: 7bit",
      "",
      htmlBody ]
  base64UrlUtf8 (joinCRLF (emailParts.filter (fun s => s ≠ "")))

/-! ## Send orchestrator (`route.ts` lines 157–356, `POST`) -/

/-- The authenticated session (`session.user`). -/
structure Session where
  userId : String
  email : Option String
  name : Option String
  deriving Repr, DecidableEq

/-- A request recipient (`{ email, name? }`). -/
structure EmailRecipient where
  email : String
  name : Option String
  deriving Repr, DecidableEq

/-- A request attachment (`{ id, name, url, type, size }`). -/
structure EmailAttachment where
  id : String
  name : String
  url : String
  kind : String
  size : Nat
  deriving Repr, DecidableEq

/-- The parsed `SendEmailRequest` body. -/
structure SendEmailRequest where
  chatId : String
  subject : String
  senderName : Option String
  recipients : Option (List EmailRecipient)
  replyTo : Option String
  template : String
  attachments : Option (List EmailAttachment)
  deriving Repr, DecidableEq

/-- An error thrown by a Gmail API call (`error.code`, `error.message`). -/
structure GmailError where
  code : Option Nat
  message : Option String
  deriving Repr, DecidableEq

/-- The data of a successful `gmail.users.messages.send` response
(`response.data.id`, `response.data.threadId`, both nullable). -/
structure SendData where
  id : Option String
  threadId : Option String
  deriving Repr, DecidableEq

/-- `recipients` filter of the handler (line 180):
`r.email?.includes("@") && r.email?.includes(".")`. -/
def isValidRecipient (r : EmailRecipient) : Bool :=
  strIncludes r.email "@" && strIncludes r.email "."

/-- The status of the `emailSend` audit row. -/
inductive SendStatus
  | PENDING
  | SENT
  | FAILED
  deriving Repr, DecidableEq

/-- The `metadata` JSON stored on a successful send (line 291). -/
structure SendMetadata where
  messageId : Option String
  threadId : Option String
  service : String
  htmlProcessed : Bool
  deriving Repr, DecidableEq

/-- The `emailSend` audit row as created and mutated by the handler. -/
structure EmailSendRecord where
  chatId : String
  userId : String
  subject : String
  senderName : String
  senderEmail : String
  recipients : List EmailRecipient
  templateHtml : String
  attachments : List EmailAttachment
  status : SendStatus
  sentAtSet : Bool
  errorMessage : Option String
  metadata : Option SendMetadata
  deriving Repr, DecidableEq

/-- The JSON response of the handler, with HTTP status.  Fields absent from
a given response body are `none`; `timestampSet` records whether a
`timestamp` field was produced. -/
structure RouteResponse where
  status : Nat
  success : Option Bool
  error : Option String
  details : Option String
  code : Option String
  emailSendId : Option String
  messageId : Option (Option String)
  threadId : Option (Option String)
  recipients : Option Nat
  timestampSet : Bool
  deriving Repr, DecidableEq

/-- A response carrying only status/success/error/details/code. -/
def plainResponse (status : Nat) (success : Option Bool)
    (error details code : Option String) : RouteResponse :=
  ⟨status, success, error, details, code, none, none, none, none, false⟩

/-- The observable outcome of one `POST` call: the HTTP response, the final
state of the `emailSend` row (`none` when no row was created), whether the
renderer ran, whether the transport send was issued, and how many
token-refresh network calls were made. -/
structure RouteResult where
  response : RouteResponse
  record : Option EmailSendRecord
  renderInvoked : Bool
  sendInvoked : Bool
  refreshCalls : Nat
  deriving Repr, DecidableEq

/-- The environment of one `POST` call: every external effect as an oracle.
`preflight = none` means `testGmailAccess` succeeded; `some e` means the
profile call threw `e`.  `sendResult` is the outcome of
`gmail.users.messages.send`; `newRecordId` is the id Prisma assigns to the
created `emailSend` row. -/
structure RouteEnv where
  session : Option Session
  chatFound : Bool
  account : Option StoredAccount
  now : Nat
  refreshResp : Option RefreshResp
  preflight : Option GmailError
  juiceF : String → Except String String
  sendResult : Except GmailError SendData
  newRecordId : String

/-- The error message stored on a failed send (line 315):
`sendError instanceof Error ? sendError.message : String(sendError)`,
modelled as the thrown error's message (empty when absent). -/
def sendErrorMessage (e : GmailError) : String :=
  e.message.getD ""

/-- `gmailTest.error?.message?.includes("invalid_grant")` (lines 237/321). -/
def msgHasInvalidGrant (e : GmailError) : Bool :=
  match e.message with
  | some m => strIncludes m "invalid_grant"
  | none => false

/-- `route.ts` lines 157–356, the `POST` handler of `/api/email/send`
(first draft), step by step:
1. no session / falsy user id → 401 `Unauthorized`;
2. falsy subject, template or chatId → 400 `Missing required fields`;
3. chat not owned by the caller → 404 `Chat not found`;
4. recipients filtered to those containing `@` and `.`; empty → 400
   `No valid recipient emails provided`;
5. falsy sender email → 400 `MISSING_SENDER_EMAIL`;
6. `Promise.all`: `getUserTokens` and the PENDING `emailSend` row are both
   executed — the row exists from here on;
7. `tokens` null → 401 `AUTH_REQUIRED` (row left PENDING);
8. pre-flight failure → 401 `AUTH_EXPIRED` on code 401/`invalid_grant`,
   403 `PERMISSION_DENIED` on code 403, else 500 `GMAIL_API_ERROR`
   (row left PENDING, renderer not invoked);
9. render (`processHtmlForEmail`, `optimizeHtmlForEmail`,
   `createHtmlEmail`) and send: on success the row becomes SENT with
   `sentAt` and metadata and a success payload is returned; on a thrown
   send error the row becomes FAILED with the error message, then
   401/403/429 are mapped to `AUTH_EXPIRED`/`PERMISSION_DENIED`/
   `RATE_LIMIT` and anything else is rethrown into the outer catch
   (500 `SEND_FAILED`). -/
def emailSendPOST (env : RouteEnv) (data : SendEmailRequest) : RouteResult :=
  match env.session with
  | none => ⟨plainResponse 401 none (some "Unauthorized") none none, none, false, false, 0⟩
  | some s =>
      if s.userId = "" then
        ⟨plainResponse 401 none (some "Unauthorized") none none, none, false, false, 0⟩
      else if data.subject = "" ∨ data.template = "" ∨ data.chatId = "" then
        ⟨plainResponse 400 (some false) (some "Missing required fields")
          (some "Subject, template, and chat ID are required") none, none, false, false, 0⟩
      else
        let validRecipients := (data.recipients.getD []).filter isValidRecipient
        if env.chatFound = false then
          ⟨plainResponse 404 none (some "Chat not found") none none, none, false, false, 0⟩
        else if validRecipients = [] then
          ⟨plainResponse 400 (some false) (some "No valid recipient emails provided")
            none none, none, false, false, 0⟩
        else
          let senderEmail? := s.email
          let senderName :=
            match data.senderName with
            | some n => if n ≠ "" then n else
                match s.name with
                | some m => if m ≠ "" then m else "User"
                | none => "User"
            | none =>
                match s.name with
                | some m => if m ≠ "" then m else "User"
                | none => "User"
          if truthyOptStr senderEmail? = false then
            ⟨plainResponse 400 (some false) (some "User email not found") none
              (some "MISSING_SENDER_EMAIL"), none, false, false, 0⟩
          else
            let senderEmail := senderEmail?.getD ""
            let tk := getUserTokens env.account env.now env.refreshResp
            let record0 : EmailSendRecord :=
              { chatId := data.chatId
                userId := s.userId
                subject := data.subject
                senderName := senderName
                senderEmail := senderEmail
                recipients := validRecipients
                templateHtml := data.template
                attachments := data.attachments.getD []
                status := SendStatus.PENDING
                sentAtSet := false
                errorMessage := none
                metadata := none }
            match tk.result with
            | none =>
                ⟨plainResponse 401 (some false) (some "Google account authentication failed")
                  (some "Please sign in with Google again to send emails")
                  (some "AUTH_REQUIRED"), some record0, false, false, tk.refreshCalls⟩
            | some _tokens =>
                match env.preflight with
                | some e =>
                    if e.code = some 401 ∨ msgHasInvalidGrant e = true then
                      ⟨plainResponse 401 (some false) (some "Authentication failed")
                        (some "Please re-authenticate with Google to send emails")
                        (some "AUTH_EXPIRED"), some record0, false, false, tk.refreshCalls⟩
                    else if e.code = some 403 then
                      ⟨plainResponse 403 (some false) (some "Permission denied")
                        (some "Gmail API access denied. Please check your Google account permissions.")
                        (some "PERMISSION_DENIED"), some record0, false, false, tk.refreshCalls⟩
                    else
                      ⟨plainResponse 500 (some false) (some "Gmail API access failed")
                        (some (e.message.getD "Unknown error"))
                        (some "GMAIL_API_ERROR"), some record0, false, false, tk.refreshCalls⟩
                | none =>
                    let processedHtml := processHtmlForEmail data.template
                    let finalHtml := optimizeHtmlForEmail env.juiceF processedHtml
                    let _emailMessage := createHtmlEmail (validRecipients.map (·.email))
                      data.subject finalHtml senderName senderEmail data.replyTo
                    match env.sendResult with
                    | Except.ok resp =>
                        let record1 : EmailSendRecord :=
                          { record0 with
                            status := SendStatus.SENT
                            sentAtSet := true
                            metadata := some ⟨resp.id, resp.threadId, "Gmail API", true⟩ }
                        ⟨⟨200, some true, none, none, none, some env.newRecordId,
                          some resp.id, some resp.threadId, some validRecipients.length, true⟩,
                          some record1, true, true, tk.refreshCalls⟩
                    | Except.error err =>
                        let record1 : EmailSendRecord :=
                          { record0 with
                            status := SendStatus.FAILED
                            errorMessage := some (sendErrorMessage err) }
                        if err.code = some 401 ∨ msgHasInvalidGrant err = true then
                          ⟨plainResponse 401 (some false) (some "Authentication failed")
                            none (some "AUTH_EXPIRED"), some record1, true, true, tk.refreshCalls⟩
                        else if err.code = some 403 then
                          ⟨plainResponse 403 (some false) (some "Permission denied")
                            none (some "PERMISSION_DENIED"), some record1, true, true, tk.refreshCalls⟩
                        else if err.code = some 429 then
                          ⟨plainResponse 429 (some false) (some "Rate limit exceeded")
                            none (some "RATE_LIMIT"), some record1, true, true, tk.refreshCalls⟩
                        else
                          ⟨plainResponse 500 (some false) (some "Failed to send email")
                            (some (sendErrorMessage err)) (some "SEND_FAILED"),
                            some record1, true, true, tk.refreshCalls⟩

/-! ## Spec-side definitions and concrete instances -/

/-- Modelled from the spec (claim C3 / §4.2 step 4): the envelope as the
spec describes it — headers `To`, `From`, `Subject`, optional `Reply-To`,
`MIME-Version: 1.0`, `Content-Type: text/html; charset=UTF-8`, then a blank
line, then the rendered HTML body, joined with CRLF and base64url-encoded.
To be compared with `createHtmlEmail`, the definition taken from the
source. -/
def specEnvelope (toAddrs : List String) (subject htmlBody fromName fromEmail : String)
    (replyTo : Option String) : String :=
  base64UrlUtf8 (joinCRLF
    ([ "To: " ++ joinCommaSpace toAddrs,
       "From: " ++ fromName ++ " <" ++ fromEmail ++ ">",
       "Subject: " ++ subject ]
     ++ (match replyTo with
         | some r => ["Reply-To: " ++ r]
         | none => [])
     ++ [ "MIME-Version: 1.0",
          "Content-Type: text/html; charset=UTF-8",
          "",
          htmlBody ]))

/-- The assembly `createHtmlEmail` actually performs, stated independently
of the source's `filter(Boolean)` trick: the headers additionally include
`Content-Transfer-Encoding: 7bit`, a `Reply-To` only when provided and
nonempty, no blank separator line, and the body only when nonempty. -/
def actualEnvelope (toAddrs : List String) (subject htmlBody fromName fromEmail : String)
    (replyTo : Option String) : String :=
  base64UrlUtf8 (joinCRLF
    ([ "To: " ++ joinCommaSpace toAddrs,
       "From: " ++ fromName ++ " <" ++ fromEmail ++ ">",
       "Subject: " ++ subject ]
     ++ (match replyTo with
         | some r => if r = "" then [] else ["Reply-To: " ++ r]
         | none => [])
     ++ [ "MIME-Version: 1.0",
          "Content-Type: text/html; charset=UTF-8",
          "Content-Transfer-Encoding: 7bit" ]
     ++ (if htmlBody = "" then [] else [htmlBody])))

/-- A scope string carrying both required Gmail scopes. -/
def scopeFull : String :=
  "openid email profile https://www.googleapis.com/auth/gmail.send https://www.googleapis.com/auth/gmail.compose"

/-- A grant with valid tokens, full scope and a far-future expiry
(epoch seconds 2000000 = ms 2000000000). -/
def acctFresh : StoredAccount :=
  ⟨some "AT", some "RT", some 2000000, some scopeFull, "pa"⟩

/-- A grant with valid tokens and full scope whose expiry (epoch seconds
500 = ms 500000) is long past. -/
def acctExpired : StoredAccount :=
  ⟨some "OLD", some "RT", some 500, some scopeFull, "pa"⟩

/-- A grant with valid, unexpired tokens whose scope lacks both required
Gmail scopes. -/
def acctNoScope : StoredAccount :=
  ⟨some "AT", some "RT", some 2000000, some "openid email profile", "pa"⟩

/-- A successful token-endpoint body with a rotated refresh token. -/
def rrOk : RefreshResp := ⟨"NEWAT", 3600, some "NEWRT", some scopeFull⟩

/-- A signed-in session. -/
def sessionA : Session := ⟨"user-1", some "me@example.com", some "Me"⟩

/-- A well-formed send request with one valid recipient. -/
def requestA : SendEmailRequest :=
  ⟨"chat-1", "Hello", none, some [⟨"a@b.com", none⟩], none, "<p>hi</p>", none⟩

/-- A send request whose only recipient has no valid email. -/
def requestNoValid : SendEmailRequest :=
  ⟨"chat-1", "Hello", none, some [⟨"not-an-email", none⟩], none, "<p>hi</p>", none⟩

/-- A `juice` oracle that always succeeds, returning its input. -/
def juiceOk : String → Except String String := fun s => Except.ok s

/-- Environment for scenario B: fresh expired grant, the refresh network
call fails (`refreshResp = none`); everything downstream would succeed. -/
def envRefreshFail : RouteEnv :=
  ⟨some sessionA, true, some acctExpired, 1000000000, none, none, juiceOk,
   Except.ok ⟨some "msg-1", some "th-1"⟩, "send-1"⟩

/-- Environment for scenario C: valid fresh grant, but the pre-flight
profile call throws a 403. -/
def envPreflight403 : RouteEnv :=
  ⟨some sessionA, true, some acctFresh, 1000000, none, some ⟨some 403, none⟩, juiceOk,
   Except.ok ⟨some "msg-1", some "th-1"⟩, "send-1"⟩

/-- Environment for scenario A: valid fresh grant, pre-flight succeeds,
the provider accepts the send. -/
def envSendOk : RouteEnv :=
  ⟨some sessionA, true, some acctFresh, 1000000, none, none, juiceOk,
   Except.ok ⟨some "msg-1", some "th-1"⟩, "send-1"⟩

/-- Environment for the scope-missing scenario. -/
def envNoScope : RouteEnv :=
  ⟨some sessionA, true, some acctNoScope, 1000000, none, none, juiceOk,
   Except.ok ⟨some "msg-1", some "th-1"⟩, "send-1"⟩

/-! ## Theorems -/

set_option maxRecDepth 10000

/-- Helper: when the scope check fails, `getUserTokens` resolves to `null`
without touching the row and without any refresh call, whatever the token
presence check did. -/
theorem getUserTokens_noScope (a : StoredAccount) (now : Nat) (resp : Option RefreshResp)
    (hsc : hasRequiredScopes a.scope = false) :
    getUserTokens (some a) now resp = ⟨none, some a, 0⟩ := by
  simp only [getUserTokens]
  by_cases h : truthyOptStr a.access_token = false ∨ truthyOptStr a.refresh_token = false
  · rw [if_pos h]
  · rw [if_neg h, if_pos hsc]

/-- C6: for every stored grant with tokens present, a required scope, and
`expiresAt` more than the 5-minute SKEW in the future, `getUserTokens`
performs zero refresh network calls, returns the stored access token
unchanged, and leaves the stored row unmodified. -/
theorem fresh_token_no_refresh (a : StoredAccount) (now e : Nat) (resp : Option RefreshResp)
    (hat : truthyOptStr a.access_token = true)
    (hrt : truthyOptStr a.refresh_token = true)
    (hsc : hasRequiredScopes a.scope = true)
    (hexp : a.expires_at = some e)
    (hfresh : now + 5 * 60 * 1000 < e * 1000) :
    getUserTokens (some a) now resp =
      ⟨some ⟨a.access_token.getD "", a.refresh_token.getD ""⟩, some a, 0⟩ := by
  have he : ¬ (e = 0) := by omega
  simp only [getUserTokens]
  rw [hexp]
  simp only [hat, hrt, hsc, expiresAtMs, if_neg he]
  rw [if_neg (by simp), if_neg (by simp), if_pos (by constructor <;> omega)]

/-- Witness for C6 at a concrete grant. -/
theorem fresh_token_no_refresh_witness :
    getUserTokens (some acctFresh) 1000000 none =
      ⟨some ⟨"AT", "RT"⟩, some acctFresh, 0⟩ :=
  fresh_token_no_refresh acctFresh 1000000 2000000 none (by decide) (by decide)
    (by decide) rfl (by decide)

/-- C7: for every stored grant with tokens present, a required scope, and
an expiry in the past, `getUserTokens` makes exactly one refresh call and,
when the provider responds with a positive `expires_in`, persists the new
access token, a strictly later `expiresAt`, and the possibly-rotated
refresh token (the provider's when returned, else the previous one), and
returns the new access token. -/
theorem expired_token_single_refresh (a : StoredAccount) (now e : Nat) (r : RefreshResp)
    (hat : truthyOptStr a.access_token = true)
    (hrt : truthyOptStr a.refresh_token = true)
    (hsc : hasRequiredScopes a.scope = true)
    (hexp : a.expires_at = some e)
    (hpast : e * 1000 < now)
    (hpos : 1 ≤ r.expires_in) :
    getUserTokens (some a) now (some r) =
      ⟨some ⟨r.access_token, r.refresh_token.getD (a.refresh_token.getD "")⟩,
       some { a with
              access_token := some r.access_token
              expires_at := some ((now + r.expires_in * 1000) / 1000)
              refresh_token := some (r.refresh_token.getD (a.refresh_token.getD ""))
              scope := if r.scope.getD "" ≠ "" then some (r.scope.getD "") else a.scope },
       1⟩
    ∧ e < (now + r.expires_in * 1000) / 1000 := by
  constructor
  · simp only [getUserTokens]
    rw [hexp]
    simp only [hat, hrt, hsc, expiresAtMs]
    rw [if_neg (by simp), if_neg (by simp), if_neg (by
      by_cases he : e = 0
      · simp [he]
      · simp only [if_neg he]
        intro h
        omega)]
    unfold refreshAccessToken
    rfl
  · omega

/-- Witness for C7 at a concrete expired grant and refresh response. -/
theorem expired_token_single_refresh_witness :
    getUserTokens (some acctExpired) 1000000000 (some rrOk) =
      ⟨some ⟨"NEWAT", "NEWRT"⟩,
       some ⟨some "NEWAT", some "NEWRT", some ((1000000000 + 3600 * 1000) / 1000),
             some scopeFull, "pa"⟩, 1⟩
    ∧ 500 < (1000000000 + 3600 * 1000) / 1000 := by
  have h := expired_token_single_refresh acctExpired 1000000000 500 rrOk
    (by decide) (by decide) (by decide) rfl (by decide) (by decide)
  exact ⟨h.1.trans (by decide), h.2⟩

/-- C10: `optimizeHtmlForEmail` is total over the inliner's failures — when
the `juice` oracle throws, the exception is caught and the input HTML is
returned unchanged. -/
theorem optimize_catches_juice_error (juiceF : String → Except String String)
    (html msg : String) (h : juiceF html = Except.error msg) :
    optimizeHtmlForEmail juiceF html = html := by
  unfold optimizeHtmlForEmail
  rw [h]

/-- Witness for C10 at a concrete always-throwing inliner. -/
theorem optimize_catches_juice_error_witness :
    optimizeHtmlForEmail (fun _ => Except.error "juice failed") "<div>x</div>" = "<div>x</div>" :=
  optimize_catches_juice_error (fun _ => Except.error "juice failed") "<div>x</div>"
    "juice failed" rfl

/-- Helper: appending to a string with nonempty data keeps the data
nonempty. -/
theorem data_ne_nil_append_left (p s : String) (h : p.data ≠ []) : (p ++ s).data ≠ [] := by
  rw [String.data_append]
  intro h2
  exact h (List.append_eq_nil.mp h2).1

/-- Helper: a string with nonempty data is not the empty string. -/
theorem ne_empty_of_data_ne_nil (s : String) (h : s.data ≠ []) : s ≠ "" := by
  intro he
  rw [he] at h
  exact h rfl

/-- C3 counterexample: at a concrete input, `createHtmlEmail` differs from
the assembly the claim describes (`specEnvelope`): the source additionally
emits `Content-Transfer-Encoding: 7bit`, and its `filter(Boolean)` drops
the empty string that was meant to become the blank line between headers
and body. -/
theorem envelope_spec_counterexample :
    createHtmlEmail ["a@b.c"] "s" "<p>x</p>" "n" "e@f.g" none ≠
      specEnvelope ["a@b.c"] "s" "<p>x</p>" "n" "e@f.g" none := by decide

/-- C3 amended: `createHtmlEmail` assembles `To`, `From`, `Subject`, a
`Reply-To` only when provided and nonempty, `MIME-Version: 1.0`,
`Content-Type: text/html; charset=UTF-8` and
`Content-Transfer-Encoding: 7bit`, followed directly (no blank line) by the
HTML body when it is nonempty, joined with CRLF and base64url-encoded. -/
theorem createHtmlEmail_assembly (toAddrs : List String)
    (subject htmlBody fromName fromEmail : String) (replyTo : Option String) :
    createHtmlEmail toAddrs subject htmlBody fromName fromEmail replyTo =
      actualEnvelope toAddrs subject htmlBody fromName fromEmail replyTo := by
  have hTo : ("To: " ++ joinCommaSpace toAddrs) ≠ "" :=
    ne_empty_of_data_ne_nil _ (data_ne_nil_append_left _ _ (by decide))
  have hFrom : ("From: " ++ fromName ++ " <" ++ fromEmail ++ ">") ≠ "" :=
    ne_empty_of_data_ne_nil _ (data_ne_nil_append_left _ _ (data_ne_nil_append_left _ _
      (data_ne_nil_append_left _ _ (data_ne_nil_append_left _ _ (by decide)))))
  have hSub : ("Subject: " ++ subject) ≠ "" :=
    ne_empty_of_data_ne_nil _ (data_ne_nil_append_left _ _ (by decide))
  unfold createHtmlEmail actualEnvelope
  cases replyTo with
  | none =>
      by_cases hb : htmlBody = "" <;>
        simp [List.filter_cons, hTo, hFrom, hSub, hb]
  | some r =>
      by_cases hr : r = "" <;> by_cases hb : htmlBody = "" <;>
        · have hR : ("Reply-To: " ++ r) ≠ "" :=
            ne_empty_of_data_ne_nil _ (data_ne_nil_append_left _ _ (by decide))
          simp [List.filter_cons, hTo, hFrom, hSub, hb, hr, hR]

/-- C4 counterexample: the compatibility-rewrite pass is not idempotent —
re-applying it to its own output on `<img>` changes the bytes again. -/
theorem compat_rewrites_counterexample :
    emailCompatFixes (emailCompatFixes "<img>") ≠ emailCompatFixes "<img>" := by decide

/-- C4 amended: on an `<img>` tag the rewrite pass appends the
`display:block` style once per application — the second application
appends a second, duplicate style attribute, so applying the pass twice is
not byte-identical to applying it once. -/
theorem compat_rewrites_double_append :
    emailCompatFixes "<img>" =
      "<img style=\"display:block; border:0; outline:none; text-decoration:none;\">" ∧
    emailCompatFixes (emailCompatFixes "<img>") =
      "<img style=\"display:block; border:0; outline:none; text-decoration:none;\" style=\"display:block; border:0; outline:none; text-decoration:none;\">" := by
  constructor <;> decide

/-- Helper: the `POST` handler when validation passed but `getUserTokens`
resolved to `null`: 401 `AUTH_REQUIRED`, the PENDING row never reconciled,
renderer and transport untouched. -/
theorem post_tokens_none (env : RouteEnv) (data : SendEmailRequest) (s : Session)
    (hs : env.session = some s) (hid : ¬ (s.userId = ""))
    (hsub : ¬ (data.subject = "")) (htem : ¬ (data.template = "")) (hcid : ¬ (data.chatId = ""))
    (hchat : env.chatFound = true)
    (hrec : ¬ ((data.recipients.getD []).filter isValidRecipient = []))
    (hmail : truthyOptStr s.email = true)
    (htok : (getUserTokens env.account env.now env.refreshResp).result = none) :
    (emailSendPOST env data).response.status = 401 ∧
    (emailSendPOST env data).response.code = some "AUTH_REQUIRED" ∧
    (emailSendPOST env data).record.map EmailSendRecord.status = some SendStatus.PENDING ∧
    (emailSendPOST env data).renderInvoked = false ∧
    (emailSendPOST env data).sendInvoked = false ∧
    (emailSendPOST env data).refreshCalls =
      (getUserTokens env.account env.now env.refreshResp).refreshCalls := by
  simp only [emailSendPOST, hs]
  rw [if_neg hid, if_neg (not_or.mpr ⟨hsub, not_or.mpr ⟨htem, hcid⟩⟩),
    if_neg (by simp [hchat]), if_neg hrec, if_neg (by simp [hmail]), htok]
  exact ⟨rfl, rfl, rfl, rfl, rfl, rfl⟩

/-- Helper: `getUserTokens` on a well-formed but expired grant whose
refresh network call fails: one refresh call, `null` result, row
untouched. -/
theorem getUserTokens_refresh_failed (a : StoredAccount) (now e : Nat)
    (hat : truthyOptStr a.access_token = true)
    (hrt : truthyOptStr a.refresh_token = true)
    (hsc : hasRequiredScopes a.scope = true)
    (hexp : a.expires_at = some e)
    (hpast : e * 1000 < now) :
    getUserTokens (some a) now none = ⟨none, some a, 1⟩ := by
  simp only [getUserTokens]
  rw [hexp]
  simp only [hat, hrt, hsc, expiresAtMs]
  rw [if_neg (by simp), if_neg (by simp), if_neg (by
    by_cases he : e = 0
    · simp [he]
    · simp only [if_neg he]
      intro h
      omega)]
  rfl

/-- C1 counterexample: with the pre-flight profile call throwing a 403
after the PENDING row was created, the handler does answer 403
`PERMISSION_DENIED` without invoking the renderer, but the SendRecord of
the attempt is left PENDING — it does not end FAILED as the claim
states. -/
theorem preflight403_counterexample :
    (emailSendPOST envPreflight403 requestA).response.status = 403 ∧
    (emailSendPOST envPreflight403 requestA).response.code = some "PERMISSION_DENIED" ∧
    (emailSendPOST envPreflight403 requestA).renderInvoked = false ∧
    (emailSendPOST envPreflight403 requestA).record.map EmailSendRecord.status =
      some SendStatus.PENDING ∧
    ¬ ((emailSendPOST envPreflight403 requestA).record.map EmailSendRecord.status =
      some SendStatus.FAILED) := by decide

/-- C1 amended: when the pre-flight identity call fails with a 403 (and no
`invalid_grant` message) after the PENDING SendRecord has been created, the
handler responds HTTP 403 with code `PERMISSION_DENIED`, never invokes the
renderer or the transport, and the SendRecord is left PENDING (the failure
branch performs no record update). -/
theorem preflight403_behavior (env : RouteEnv) (data : SendEmailRequest) (s : Session)
    (pe : GmailError) (tp : TokenPair) (acctOut : Option StoredAccount) (k : Nat)
    (hs : env.session = some s) (hid : ¬ (s.userId = ""))
    (hsub : ¬ (data.subject = "")) (htem : ¬ (data.template = "")) (hcid : ¬ (data.chatId = ""))
    (hchat : env.chatFound = true)
    (hrec : ¬ ((data.recipients.getD []).filter isValidRecipient = []))
    (hmail : truthyOptStr s.email = true)
    (htok : getUserTokens env.account env.now env.refreshResp = ⟨some tp, acctOut, k⟩)
    (hpf : env.preflight = some pe)
    (hcode : pe.code = some 403)
    (hmsg : msgHasInvalidGrant pe = false) :
    (emailSendPOST env data).response.status = 403 ∧
    (emailSendPOST env data).response.code = some "PERMISSION_DENIED" ∧
    (emailSendPOST env data).record.map EmailSendRecord.status = some SendStatus.PENDING ∧
    (emailSendPOST env data).renderInvoked = false ∧
    (emailSendPOST env data).sendInvoked = false := by
  simp only [emailSendPOST, hs]
  rw [if_neg hid, if_neg (not_or.mpr ⟨hsub, not_or.mpr ⟨htem, hcid⟩⟩),
    if_neg (by simp [hchat]), if_neg hrec, if_neg (by simp [hmail]), htok, hpf]
  simp only []
  rw [if_neg (by simp [hcode, hmsg]), if_pos hcode]
  exact ⟨rfl, rfl, rfl, rfl, rfl⟩

/-- Witness for the amended C1 at a concrete environment. -/
theorem preflight403_behavior_witness :
    (emailSendPOST envPreflight403 requestA).response.status = 403 ∧
    (emailSendPOST envPreflight403 requestA).response.code = some "PERMISSION_DENIED" ∧
    (emailSendPOST envPreflight403 requestA).record.map EmailSendRecord.status =
      some SendStatus.PENDING ∧
    (emailSendPOST envPreflight403 requestA).renderInvoked = false ∧
    (emailSendPOST envPreflight403 requestA).sendInvoked = false :=
  preflight403_behavior envPreflight403 requestA sessionA ⟨some 403, none⟩ ⟨"AT", "RT"⟩
    (some acctFresh) 0 rfl (by decide) (by decide) (by decide) (by decide) rfl (by decide)
    (by decide) (by decide) rfl rfl (by decide)

/-- C2 counterexample: with an expired grant whose refresh call fails, the
handler answers 401 but with code `AUTH_REQUIRED` — not `AUTH_EXPIRED` as
the claim states — and the PENDING SendRecord is left PENDING rather than
transitioned to FAILED (no transport call is made). -/
theorem refresh_failure_counterexample :
    (emailSendPOST envRefreshFail requestA).response.status = 401 ∧
    (emailSendPOST envRefreshFail requestA).response.code = some "AUTH_REQUIRED" ∧
    ¬ ((emailSendPOST envRefreshFail requestA).response.code = some "AUTH_EXPIRED") ∧
    (emailSendPOST envRefreshFail requestA).record.map EmailSendRecord.status =
      some SendStatus.PENDING ∧
    ¬ ((emailSendPOST envRefreshFail requestA).record.map EmailSendRecord.status =
      some SendStatus.FAILED) ∧
    (emailSendPOST envRefreshFail requestA).sendInvoked = false ∧
    (emailSendPOST envRefreshFail requestA).refreshCalls = 1 := by decide

/-- C2 amended: when the stored grant's token is expired and the refresh
call fails, `getUserTokens` resolves to `null` after exactly one refresh
attempt, the handler responds HTTP 401 with code `AUTH_REQUIRED` (the
handler cannot distinguish a failed refresh from a missing grant), no
transport call is attempted, and the PENDING SendRecord is left PENDING. -/
theorem refresh_failure_behavior (env : RouteEnv) (data : SendEmailRequest) (s : Session)
    (a : StoredAccount) (e : Nat)
    (hs : env.session = some s) (hid : ¬ (s.userId = ""))
    (hsub : ¬ (data.subject = "")) (htem : ¬ (data.template = "")) (hcid : ¬ (data.chatId = ""))
    (hchat : env.chatFound = true)
    (hrec : ¬ ((data.recipients.getD []).filter isValidRecipient = []))
    (hmail : truthyOptStr s.email = true)
    (hacct : env.account = some a)
    (hat : truthyOptStr a.access_token = true)
    (hrt : truthyOptStr a.refresh_token = true)
    (hsc : hasRequiredScopes a.scope = true)
    (hexp : a.expires_at = some e)
    (hpast : e * 1000 < env.now)
    (hresp : env.refreshResp = none) :
    (emailSendPOST env data).response.status = 401 ∧
    (emailSendPOST env data).response.code = some "AUTH_REQUIRED" ∧
    (emailSendPOST env data).record.map EmailSendRecord.status = some SendStatus.PENDING ∧
    (emailSendPOST env data).renderInvoked = false ∧
    (emailSendPOST env data).sendInvoked = false ∧
    (emailSendPOST env data).refreshCalls = 1 := by
  have hgt : getUserTokens env.account env.now env.refreshResp = ⟨none, some a, 1⟩ := by
    rw [hacct, hresp]
    exact getUserTokens_refresh_failed a env.now e hat hrt hsc hexp hpast
  have h := post_tokens_none env data s hs hid hsub htem hcid hchat hrec hmail (by rw [hgt])
  refine ⟨h.1, h.2.1, h.2.2.1, h.2.2.2.1, h.2.2.2.2.1, ?_⟩
  rw [h.2.2.2.2.2, hgt]

/-- Witness for the amended C2 at a concrete environment. -/
theorem refresh_failure_behavior_witness :
    (emailSendPOST envRefreshFail requestA).response.status = 401 ∧
    (emailSendPOST envRefreshFail requestA).response.code = some "AUTH_REQUIRED" ∧
    (emailSendPOST envRefreshFail requestA).record.map EmailSendRecord.status =
      some SendStatus.PENDING ∧
    (emailSendPOST envRefreshFail requestA).renderInvoked = false ∧
    (emailSendPOST envRefreshFail requestA).sendInvoked = false ∧
    (emailSendPOST envRefreshFail requestA).refreshCalls = 1 :=
  refresh_failure_behavior envRefreshFail requestA sessionA acctExpired 500 rfl (by decide)
    (by decide) (by decide) (by decide) rfl (by decide) (by decide) rfl (by decide)
    (by decide) (by decide) rfl (by decide) rfl

/-- C5: the handler keeps exactly the recipients whose email contains both
`@` and `.`, preserving their order (the kept list is a sublist, with
membership characterised by the two `includes` checks); on the concrete
list of the claim it keeps exactly the first and third entries; and when no
recipient survives the filter it responds 400 with `success:false` and
creates no SendRecord. -/
theorem recipient_filtering :
    (∀ (l : List EmailRecipient) (r : EmailRecipient),
        List.Sublist (l.filter isValidRecipient) l ∧
        (r ∈ l.filter isValidRecipient ↔
          r ∈ l ∧ strIncludes r.email "@" = true ∧ strIncludes r.email "." = true)) ∧
    (([⟨"a@b.com", none⟩, ⟨"not-an-email", none⟩, ⟨"c@d.org", none⟩] :
        List EmailRecipient).filter isValidRecipient
      = [⟨"a@b.com", none⟩, ⟨"c@d.org", none⟩]) ∧
    (∀ (env : RouteEnv) (data : SendEmailRequest) (s : Session),
      env.session = some s → ¬ (s.userId = "") → ¬ (data.subject = "") →
      ¬ (data.template = "") → ¬ (data.chatId = "") → env.chatFound = true →
      (data.recipients.getD []).filter isValidRecipient = [] →
      (emailSendPOST env data).response.status = 400 ∧
      (emailSendPOST env data).response.success = some false ∧
      (emailSendPOST env data).record = none) := by
  refine ⟨fun l r => ⟨List.filter_sublist l, ?_⟩, by decide, ?_⟩
  · rw [List.mem_filter]
    simp [isValidRecipient, Bool.and_eq_true]
  · intro env data s hs hid hsub htem hcid hchat hrec
    simp only [emailSendPOST, hs]
    rw [if_neg hid, if_neg (not_or.mpr ⟨hsub, not_or.mpr ⟨htem, hcid⟩⟩),
      if_neg (by simp [hchat]), if_pos hrec]
    exact ⟨rfl, rfl, rfl⟩

/-- Witness for C5 at a concrete request whose only recipient is
invalid. -/
theorem recipient_filtering_witness :
    (emailSendPOST envSendOk requestNoValid).response.status = 400 ∧
    (emailSendPOST envSendOk requestNoValid).response.success = some false ∧
    (emailSendPOST envSendOk requestNoValid).record = none :=
  recipient_filtering.2.2 envSendOk requestNoValid sessionA rfl (by decide) (by decide)
    (by decide) (by decide) rfl (by decide)

/-- C8: for every stored grant whose scope string lacks both required Gmail
send scopes, `getUserTokens` resolves to `null` with zero refresh calls,
regardless of expiry; and a `POST` through such a grant answers HTTP 401
with code `AUTH_REQUIRED`, returning no token to the pipeline. -/
theorem missing_scope_auth_required (a : StoredAccount) (now : Nat)
    (resp : Option RefreshResp)
    (hsc : hasRequiredScopes a.scope = false) :
    (getUserTokens (some a) now resp).result = none ∧
    (getUserTokens (some a) now resp).refreshCalls = 0 ∧
    (∀ (env : RouteEnv) (data : SendEmailRequest) (s : Session),
      env.session = some s → ¬ (s.userId = "") → ¬ (data.subject = "") →
      ¬ (data.template = "") → ¬ (data.chatId = "") → env.chatFound = true →
      ¬ ((data.recipients.getD []).filter isValidRecipient = []) →
      truthyOptStr s.email = true →
      env.account = some a →
      (emailSendPOST env data).response.status = 401 ∧
      (emailSendPOST env data).response.code = some "AUTH_REQUIRED") := by
  have h0 : ∀ (n : Nat) (rp : Option RefreshResp),
      getUserTokens (some a) n rp = ⟨none, some a, 0⟩ :=
    fun n rp => getUserTokens_noScope a n rp hsc
  refine ⟨by rw [h0], by rw [h0], ?_⟩
  intro env data s hs hid hsub htem hcid hchat hrec hmail hacct
  have h := post_tokens_none env data s hs hid hsub htem hcid hchat hrec hmail
    (by rw [hacct, h0])
  exact ⟨h.1, h.2.1⟩

/-- Witness for C8 at a concrete scope-less grant. -/
theorem missing_scope_auth_required_witness :
    (getUserTokens (some acctNoScope) 1000000 none).result = none ∧
    (emailSendPOST envNoScope requestA).response.status = 401 ∧
    (emailSendPOST envNoScope requestA).response.code = some "AUTH_REQUIRED" := by
  have h := missing_scope_auth_required acctNoScope 1000000 none (by decide)
  have h2 := h.2.2 envNoScope requestA sessionA rfl (by decide) (by decide) (by decide)
    (by decide) rfl (by decide) (by decide) rfl
  exact ⟨h.1, h2.1, h2.2⟩

/-- C9: when validation, token acquisition, pre-flight and the provider
send all succeed, the SendRecord ends SENT with `sentAt` stamped and the
provider message/thread ids in `metadata`, and the response is
`success:true` with the send id, message id, thread id, recipient count and
timestamp. -/
theorem send_success_sent_record (env : RouteEnv) (data : SendEmailRequest) (s : Session)
    (tp : TokenPair) (acctOut : Option StoredAccount) (k : Nat) (sd : SendData)
    (hs : env.session = some s) (hid : ¬ (s.userId = ""))
    (hsub : ¬ (data.subject = "")) (htem : ¬ (data.template = "")) (hcid : ¬ (data.chatId = ""))
    (hchat : env.chatFound = true)
    (hrec : ¬ ((data.recipients.getD []).filter isValidRecipient = []))
    (hmail : truthyOptStr s.email = true)
    (htok : getUserTokens env.account env.now env.refreshResp = ⟨some tp, acctOut, k⟩)
    (hpf : env.preflight = none)
    (hsend : env.sendResult = Except.ok sd) :
    (emailSendPOST env data).response.status = 200 ∧
    (emailSendPOST env data).response.success = some true ∧
    (emailSendPOST env data).response.emailSendId = some env.newRecordId ∧
    (emailSendPOST env data).response.messageId = some sd.id ∧
    (emailSendPOST env data).response.threadId = some sd.threadId ∧
    (emailSendPOST env data).response.recipients =
      some ((data.recipients.getD []).filter isValidRecipient).length ∧
    (emailSendPOST env data).response.timestampSet = true ∧
    (emailSendPOST env data).record.map EmailSendRecord.status = some SendStatus.SENT ∧
    (emailSendPOST env data).record.map EmailSendRecord.sentAtSet = some true ∧
    (emailSendPOST env data).record.map EmailSendRecord.metadata =
      some (some ⟨sd.id, sd.threadId, "Gmail API", true⟩) ∧
    (emailSendPOST env data).sendInvoked = true := by
  simp only [emailSendPOST, hs]
  rw [if_neg hid, if_neg (not_or.mpr ⟨hsub, not_or.mpr ⟨htem, hcid⟩⟩),
    if_neg (by simp [hchat]), if_neg hrec, if_neg (by simp [hmail]), htok, hpf, hsend]
  exact ⟨rfl, rfl, rfl, rfl, rfl, rfl, rfl, rfl, rfl, rfl, rfl⟩

/-- Witness for C9 at a concrete fully-successful environment. -/
theorem send_success_sent_record_witness :
    (emailSendPOST envSendOk requestA).response.status = 200 ∧
    (emailSendPOST envSendOk requestA).response.success = some true ∧
    (emailSendPOST envSendOk requestA).response.emailSendId = some "send-1" ∧
    (emailSendPOST envSendOk requestA).response.messageId = some (some "msg-1") ∧
    (emailSendPOST envSendOk requestA).response.threadId = some (some "th-1") ∧
    (emailSendPOST envSendOk requestA).response.recipients = some 1 ∧
    (emailSendPOST envSendOk requestA).response.timestampSet = true ∧
    (emailSendPOST envSendOk requestA).record.map EmailSendRecord.status =
      some SendStatus.SENT ∧
    (emailSendPOST envSendOk requestA).record.map EmailSendRecord.sentAtSet = some true ∧
    (emailSendPOST envSendOk requestA).record.map EmailSendRecord.metadata =
      some (some ⟨some "msg-1", some "th-1", "Gmail API", true⟩) ∧
    (emailSendPOST envSendOk requestA).sendInvoked = true :=
  send_success_sent_record envSendOk requestA sessionA ⟨"AT", "RT"⟩ (some acctFresh) 0
    ⟨some "msg-1", some "th-1"⟩ rfl (by decide) (by decide) (by decide) (by decide) rfl
    (by decide) (by decide) (by decide) rfl rfl

end EmailCraft
